import Mathlib

/-!
Verification of the TPFanWin EC-communication core and fan-control logic.

The Python sources (`ec_control.py`, `fan_control_logic.py`) are embedded
shallowly: port I/O is abstracted as a state machine supplied by the caller
(`PortMachine`), every hardware-facing function returns, besides its result,
the chronological list of port operations it performed (its trace) and the
final machine state, and the wall-clock poll deadline of the busy-wait loops
is modelled as a fuel bound (number of status reads a single poll may make
before timing out).  Python exceptions are modelled with `Except`.
-/

namespace TPFanWin

/-- Constants from `ec_control.py` lines 15-41. -/
def EC_DATA_PORT : Nat := 0x62

def EC_CTRL_PORT : Nat := 0x66

def EC_STATUS_PORT : Nat := 0x66

def EC_STATUS_OBF : Nat := 0x01

def EC_STATUS_IBF : Nat := 0x02

def EC_CTRL_READ_CMD : Nat := 0x80

def EC_CTRL_WRITE_CMD : Nat := 0x81

def EC_CMD_WRITE : Nat := 0x81

def TP_EC_FAN_STATUS : Nat := 0x2F

def TP_EC_FAN_RPM_LSB : Nat := 0x84

def TP_EC_FAN_RPM_MSB : Nat := 0x85

def TP_EC_TEMP_BASE : Nat := 0x78

/-- Fan level sentinels (`ec_control.py` lines 35-36); fan levels are Python
ints, so they live in `Int` here. -/
def FAN_LEVEL_AUTO : Int := 0x80

def FAN_LEVEL_FULL : Int := 0x40

/-- One raw port operation, as performed by `_read_port` / `_write_port`
(`ec_control.py` lines 84-102).  The recorded value is the masked byte that
the Python functions return (for reads) or pass to `Out32` (for writes). -/
inductive PortOp where
  | readOp (port : Nat) (value : Nat)
  | writeOp (port : Nat) (value : Nat)
deriving DecidableEq, Repr

/-- The underlying port-I/O mechanism (the `Inp32`/`Out32` pair of
inpoutx64.dll), abstracted as a deterministic machine over a state type. -/
structure PortMachine (σ : Type) where
  readP : σ → Nat → Nat × σ
  writeP : σ → Nat → Nat → σ

/-- The protocol stage at which a KCS poll timed out; one constructor per
distinct `TimeoutError` message in `ec_control.py`. -/
inductive KcsStage where
  | ibfBeforeReadCmd
  | ibfBeforeOffset
  | obfAfterOffset
  | ibfBeforeWriteCmd
  | ibfAfterWriteCmd
  | ibfAfterOffset
  | ibfAfterData
deriving DecidableEq, Repr

/-- Python exceptions relevant to the embedded functions. -/
inductive PyErr where
  | timeoutError (stage : KcsStage)
  | valueError
  | indexError
deriving DecidableEq, Repr

/-- `_kcs_wait_ibf_clear` (`ec_control.py` lines 106-120): repeatedly read the
status port until the IBF bit is clear; the wall-clock deadline is modelled
as `fuel` remaining reads.  Returns the success flag, the trace of status
reads performed, and the final machine state. -/
def kcsWaitIbfClear {σ : Type} (M : PortMachine σ) : Nat → σ → Bool × List PortOp × σ
  | 0, s => (false, [], s)
  | fuel + 1, s =>
    let (st, s1) := M.readP s EC_STATUS_PORT
    let b := st % 256
    if b &&& EC_STATUS_IBF = 0 then (true, [.readOp EC_STATUS_PORT b], s1)
    else
      let (r, t, s2) := kcsWaitIbfClear M fuel s1
      (r, .readOp EC_STATUS_PORT b :: t, s2)

/-- `_kcs_wait_obf_set` (`ec_control.py` lines 122-136): repeatedly read the
status port until the OBF bit is set, with the same fuel convention. -/
def kcsWaitObfSet {σ : Type} (M : PortMachine σ) : Nat → σ → Bool × List PortOp × σ
  | 0, s => (false, [], s)
  | fuel + 1, s =>
    let (st, s1) := M.readP s EC_STATUS_PORT
    let b := st % 256
    if b &&& EC_STATUS_OBF ≠ 0 then (true, [.readOp EC_STATUS_PORT b], s1)
    else
      let (r, t, s2) := kcsWaitObfSet M fuel s1
      (r, .readOp EC_STATUS_PORT b :: t, s2)

/-- `_read_ec_byte` (`ec_control.py` lines 138-166).  The first status read is
the logging read of line 140 (its f-string argument is evaluated eagerly, so
the port read always happens). -/
def read_ec_byte {σ : Type} (M : PortMachine σ) (fuel : Nat) (offset : Nat) (s : σ) :
    Except PyErr Nat × List PortOp × σ :=
  let (st0, s0) := M.readP s EC_CTRL_PORT
  let i0 : PortOp := .readOp EC_CTRL_PORT (st0 % 256)
  match kcsWaitIbfClear M fuel s0 with
  | (false, t1, s1) => (.error (.timeoutError .ibfBeforeReadCmd), i0 :: t1, s1)
  | (true, t1, s1) =>
    let s2 := M.writeP s1 EC_CTRL_PORT (EC_CTRL_READ_CMD % 256)
    let w1 : PortOp := .writeOp EC_CTRL_PORT (EC_CTRL_READ_CMD % 256)
    match kcsWaitIbfClear M fuel s2 with
    | (false, t2, s3) => (.error (.timeoutError .ibfBeforeOffset), i0 :: t1 ++ w1 :: t2, s3)
    | (true, t2, s3) =>
      let s4 := M.writeP s3 EC_DATA_PORT (offset % 256)
      let w2 : PortOp := .writeOp EC_DATA_PORT (offset % 256)
      match kcsWaitObfSet M fuel s4 with
      | (false, t3, s5) =>
        (.error (.timeoutError .obfAfterOffset), i0 :: t1 ++ w1 :: t2 ++ w2 :: t3, s5)
      | (true, t3, s5) =>
        let (d0, s6) := M.readP s5 EC_DATA_PORT
        let d := d0 % 256
        let (stA, s7) := M.readP s6 EC_STATUS_PORT
        (.ok d,
         i0 :: t1 ++ w1 :: t2 ++ w2 :: t3 ++
           [.readOp EC_DATA_PORT d, .readOp EC_STATUS_PORT (stA % 256)],
         s7)

/-- `_write_ec_byte` (`ec_control.py` lines 168-200).  The first status read
is the logging read in line 170, evaluated eagerly. -/
def write_ec_byte {σ : Type} (M : PortMachine σ) (fuel : Nat) (offset value : Nat) (s : σ) :
    Except PyErr Unit × List PortOp × σ :=
  let (st0, s0) := M.readP s EC_STATUS_PORT
  let i0 : PortOp := .readOp EC_STATUS_PORT (st0 % 256)
  match kcsWaitIbfClear M fuel s0 with
  | (false, t1, s1) => (.error (.timeoutError .ibfBeforeWriteCmd), i0 :: t1, s1)
  | (true, t1, s1) =>
    let s2 := M.writeP s1 EC_CTRL_PORT (EC_CMD_WRITE % 256)
    let w1 : PortOp := .writeOp EC_CTRL_PORT (EC_CMD_WRITE % 256)
    match kcsWaitIbfClear M fuel s2 with
    | (false, t2, s3) => (.error (.timeoutError .ibfAfterWriteCmd), i0 :: t1 ++ w1 :: t2, s3)
    | (true, t2, s3) =>
      let s4 := M.writeP s3 EC_DATA_PORT (offset % 256)
      let w2 : PortOp := .writeOp EC_DATA_PORT (offset % 256)
      match kcsWaitIbfClear M fuel s4 with
      | (false, t3, s5) =>
        (.error (.timeoutError .ibfAfterOffset), i0 :: t1 ++ w1 :: t2 ++ w2 :: t3, s5)
      | (true, t3, s5) =>
        let s6 := M.writeP s5 EC_DATA_PORT (value % 256)
        let w3 : PortOp := .writeOp EC_DATA_PORT (value % 256)
        match kcsWaitIbfClear M fuel s6 with
        | (false, t4, s7) =>
          (.error (.timeoutError .ibfAfterData), i0 :: t1 ++ w1 :: t2 ++ w2 :: t3 ++ w3 :: t4, s7)
        | (true, t4, s7) =>
          (.ok (), i0 :: t1 ++ w1 :: t2 ++ w2 :: t3 ++ w3 :: t4, s7)

/-- `get_fan_rpm` (`ec_control.py` lines 205-223) with the default
`fan_index=0` (a non-zero index only logs a warning and behaves the same).
A `TimeoutError` from either read is caught and turned into `-1`. -/
def get_fan_rpm {σ : Type} (M : PortMachine σ) (fuel : Nat) (s : σ) :
    Int × List PortOp × σ :=
  match read_ec_byte M fuel TP_EC_FAN_RPM_LSB s with
  | (.error _, t1, s1) => (-1, t1, s1)
  | (.ok lsb, t1, s1) =>
    match read_ec_byte M fuel TP_EC_FAN_RPM_MSB s1 with
    | (.error _, t2, s2) => (-1, t1 ++ t2, s2)
    | (.ok msb, t2, s2) =>
      let rpm := (msb <<< 8) ||| lsb
      if rpm = 0xFFFF then ((0 : Int), t1 ++ t2, s2)
      else ((rpm : Int), t1 ++ t2, s2)

/-- `get_temperature` (`ec_control.py` lines 225-246).  An out-of-range
sensor index raises `ValueError` before any port access; a caught
`TimeoutError` during the read yields `none`, the same value that encodes
the 0x80 sensor-unavailable sentinel. -/
def get_temperature {σ : Type} (M : PortMachine σ) (fuel : Nat) (sensorIndex : Int) (s : σ) :
    Except PyErr (Option Int) × List PortOp × σ :=
  if ¬(0 ≤ sensorIndex ∧ sensorIndex ≤ 7) then (.error .valueError, [], s)
  else
    let offset := TP_EC_TEMP_BASE + sensorIndex.toNat
    match read_ec_byte M fuel offset s with
    | (.error _, t, s') => (.ok none, t, s')
    | (.ok temp, t, s') =>
      if temp = 0x80 then (.ok none, t, s')
      else if temp > 127 then (.ok (some ((temp : Int) - 256)), t, s')
      else (.ok (some (temp : Int)), t, s')

/-- `set_fan_level` (`ec_control.py` lines 248-266) with the default
`fan_index=0`.  An invalid level raises `ValueError` before any port access;
a caught `TimeoutError` during the write yields `false`. -/
def set_fan_level {σ : Type} (M : PortMachine σ) (fuel : Nat) (level : Int) (s : σ) :
    Except PyErr Bool × List PortOp × σ :=
  if ¬((0 ≤ level ∧ level ≤ 7) ∨ level = FAN_LEVEL_AUTO ∨ level = FAN_LEVEL_FULL) then
    (.error .valueError, [], s)
  else
    match write_ec_byte M fuel TP_EC_FAN_STATUS level.toNat s with
    | (.error _, t, s') => (.ok false, t, s')
    | (.ok _, t, s') => (.ok true, t, s')

/-! ## A mock EC behind the Port Access Layer

A test double implementing the KCS handshake: IBF is always clear (the mock
EC consumes bytes instantly), OBF is set exactly while an output byte is
pending, and the register file is a total function. -/

/-- Protocol mode of the mock EC. -/
inductive MockMode where
  | idle
  | awaitReadOffset
  | awaitWriteOffset
  | awaitWriteData (off : Nat)
deriving DecidableEq, Repr

/-- State of the mock EC. -/
structure MockEC where
  regs : Nat → Nat
  mode : MockMode
  output : Option Nat

/-- Status byte of the mock EC: OBF set iff an output byte is pending, IBF
always clear. -/
def mockStatus (s : MockEC) : Nat :=
  if s.output.isSome then EC_STATUS_OBF else 0

/-- Port-read behaviour of the mock EC. -/
def mockReadP (s : MockEC) (port : Nat) : Nat × MockEC :=
  if port = EC_DATA_PORT then
    match s.output with
    | some v => (v, { s with output := none })
    | none => (0, s)
  else if port = EC_STATUS_PORT then (mockStatus s, s)
  else (0, s)

/-- Port-write behaviour of the mock EC. -/
def mockWriteP (s : MockEC) (port : Nat) (v : Nat) : MockEC :=
  if port = EC_DATA_PORT then
    match s.mode with
    | .awaitReadOffset => { s with output := some (s.regs v), mode := .idle }
    | .awaitWriteOffset => { s with mode := .awaitWriteData v }
    | .awaitWriteData off =>
      { s with regs := fun x => if x = off then v else s.regs x, mode := .idle }
    | .idle => s
  else if port = EC_STATUS_PORT then
    if v = EC_CTRL_READ_CMD then { s with mode := .awaitReadOffset }
    else if v = EC_CMD_WRITE then { s with mode := .awaitWriteOffset }
    else { s with mode := .idle }
  else s

/-- The mock EC packaged as a port machine. -/
def mockM : PortMachine MockEC := ⟨mockReadP, mockWriteP⟩

/-- A mock EC in the idle state with the given register file. -/
def mockWith (f : Nat → Nat) : MockEC := ⟨f, .idle, none⟩

/-- A mock EC whose registers are all zero. -/
def mockInit : MockEC := mockWith (fun _ => 0)

/-- A machine whose status port always reads IBF-set (bit 1), so every IBF
poll times out; used to exercise the timeout paths. -/
def stuckM : PortMachine Unit :=
  ⟨fun s _ => (EC_STATUS_IBF, s), fun s _ _ => s⟩

/-- A mock EC whose register file holds `lsb` at the fan-RPM LSB register and
`msb` at the MSB register. -/
def rpmMock (lsb msb : Nat) : MockEC :=
  mockWith (fun x => if x = TP_EC_FAN_RPM_LSB then lsb else if x = TP_EC_FAN_RPM_MSB then msb else 0)

/-- A mock EC whose register file holds raw byte `b` at temperature sensor
`i` (register `TP_EC_TEMP_BASE + i`). -/
def tempMock (i b : Nat) : MockEC :=
  mockWith (fun x => if x = TP_EC_TEMP_BASE + i then b else 0)

/-! ## Trace observations -/

/-- The port writes contained in a trace, in order. -/
def writesOf : List PortOp → List (Nat × Nat)
  | [] => []
  | .writeOp p v :: t => (p, v) :: writesOf t
  | .readOp _ _ :: t => writesOf t

/-- An operation that merely reads the status port. -/
def IsStatusRead : PortOp → Prop
  | .readOp p _ => p = EC_STATUS_PORT
  | .writeOp _ _ => False

/-! ## Fan-control logic (`fan_control_logic.py`) -/

/-- Default fan curve (`fan_control_logic.py` lines 37-44). -/
def DEFAULT_FAN_CURVE : List (Int × Int) :=
  [(0, 0), (50, 1), (55, 2), (65, 3), (75, 5), (85, 7)]

/-- The `for`/`break` loop of `get_target_fan_level` (lines 110-114): take
the level of each pair whose threshold the temperature reaches, stop at the
first pair it does not. -/
def curveLoop (temp : Int) : List (Int × Int) → Int → Int
  | [], acc => acc
  | (t, l) :: rest, acc => if temp ≥ t then curveLoop temp rest l else acc

/-- `get_target_fan_level` (`fan_control_logic.py` lines 104-115).  A `none`
temperature yields the AUTO sentinel; on an empty curve the subscript
`curve[0][1]` raises `IndexError`. -/
def get_target_fan_level (temperature : Option Int) (curve : List (Int × Int)) :
    Except PyErr Int :=
  match temperature with
  | none => .ok FAN_LEVEL_AUTO
  | some temp =>
    match curve with
    | [] => .error .indexError
    | (t0, l0) :: rest => .ok (curveLoop temp ((t0, l0) :: rest) l0)

/-- `self.current_level = FAN_LEVEL_AUTO` in `TPFanWinService.__init__`
(`fan_control_logic.py` line 129). -/
def TPFanWinService_initial_level : Int := FAN_LEVEL_AUTO

/-- One pass of the body of the `while self.is_running` loop after the stop
check (`fan_control_logic.py` lines 182-205), for a cycle whose wait did not
report the stop event.  Returns the new stored level, the levels passed to
`set_fan_level` during the cycle (the write attempts), the port trace, and
the machine state.  An exception from `get_temperature` (bad index),
`get_target_fan_level` (empty curve) or `set_fan_level` (invalid level) is
caught by the `except` of line 203, leaving the stored level unchanged. -/
def control_cycle {σ : Type} (M : PortMachine σ) (fuel : Nat) (sensorIndex : Int)
    (curve : List (Int × Int)) (cur : Int) (s : σ) : Int × List Int × List PortOp × σ :=
  match get_temperature M fuel sensorIndex s with
  | (.error _, t, s') => (cur, [], t, s')
  | (.ok none, t, s') => (cur, [], t, s')
  | (.ok (some tc), t, s') =>
    match get_target_fan_level (some tc) curve with
    | .error _ => (cur, [], t, s')
    | .ok target =>
      if cur ≠ target then
        match set_fan_level M fuel target s' with
        | (.ok true, t2, s2) => (target, [target], t ++ t2, s2)
        | (.ok false, t2, s2) => (cur, [target], t ++ t2, s2)
        | (.error _, t2, s2) => (cur, [target], t ++ t2, s2)
      else (cur, [], t, s')

/-- The `while self.is_running` loop (`fan_control_logic.py` lines 172-205).
Each list element is the outcome of one `WaitForSingleObject` wait: `true`
means the stop event was signalled (the loop breaks), `false` means the wait
timed out and a control cycle runs.  Exhausting the list models
`is_running` becoming false. -/
def main_loop {σ : Type} (M : PortMachine σ) (fuel : Nat) (sensorIndex : Int)
    (curve : List (Int × Int)) : List Bool → Int → σ → Int × List Int × List PortOp × σ
  | [], cur, s => (cur, [], [], s)
  | stop :: rest, cur, s =>
    if stop then (cur, [], [], s)
    else
      let (cur1, a1, t1, s1) := control_cycle M fuel sensorIndex curve cur s
      let (cur2, a2, t2, s2) := main_loop M fuel sensorIndex curve rest cur1 s1
      (cur2, a1 ++ a2, t1 ++ t2, s2)

/-- `TPFanWinService.main` (`fan_control_logic.py` lines 157-217).  The
configuration step is modelled by its outcome: `.error` is the `except`
branch of lines 166-170, which reports the service stopped and returns at
once; `.ok (sensorIndex, curve)` carries the loaded sensor index and curve
(the poll interval does not affect the modelled behaviour).  After the loop,
lines 210-217 call `set_fan_level FAN_LEVEL_AUTO` once, ignoring failure.
Returns the stored level, the write attempts, the port trace and the
machine state. -/
def svc_main {σ : Type} (M : PortMachine σ) (fuel : Nat)
    (cfg : Except Unit (Int × List (Int × Int))) (stops : List Bool) (s : σ) :
    Int × List Int × List PortOp × σ :=
  match cfg with
  | .error _ => (TPFanWinService_initial_level, [], [], s)
  | .ok (sensorIndex, curve) =>
    let (cur1, a1, t1, s1) :=
      main_loop M fuel sensorIndex curve stops TPFanWinService_initial_level s
    let (_, t2, s2) := set_fan_level M fuel FAN_LEVEL_AUTO s1
    (cur1, a1 ++ [FAN_LEVEL_AUTO], t1 ++ t2, s2)

/-! ## Helper lemmas -/

/-- A single read transaction on the mock EC with fuel for a single poll read:
every poll succeeds at once and the register byte comes back masked. -/
theorem mock_read (f : Nat → Nat) (o : Nat) :
    read_ec_byte mockM 1 o (mockWith f) =
      (.ok (f (o % 256) % 256),
       [.readOp EC_STATUS_PORT 0, .readOp EC_STATUS_PORT 0,
        .writeOp EC_CTRL_PORT 0x80, .readOp EC_STATUS_PORT 0,
        .writeOp EC_DATA_PORT (o % 256), .readOp EC_STATUS_PORT 1,
        .readOp EC_DATA_PORT (f (o % 256) % 256), .readOp EC_STATUS_PORT 0],
       mockWith f) := by
  simp [read_ec_byte, kcsWaitIbfClear, kcsWaitObfSet, mockM, mockReadP, mockWriteP,
    mockWith, mockStatus, EC_DATA_PORT, EC_STATUS_PORT, EC_CTRL_PORT, EC_STATUS_IBF,
    EC_STATUS_OBF, EC_CTRL_READ_CMD, EC_CMD_WRITE]

/-- A single write transaction on the mock EC with fuel for a single poll read:
every poll succeeds at once and the register file is updated at the masked
offset with the masked value. -/
theorem mock_write (f : Nat → Nat) (o v : Nat) :
    write_ec_byte mockM 1 o v (mockWith f) =
      (.ok (),
       [.readOp EC_STATUS_PORT 0, .readOp EC_STATUS_PORT 0,
        .writeOp EC_CTRL_PORT 0x81, .readOp EC_STATUS_PORT 0,
        .writeOp EC_DATA_PORT (o % 256), .readOp EC_STATUS_PORT 0,
        .writeOp EC_DATA_PORT (v % 256), .readOp EC_STATUS_PORT 0],
       mockWith (fun x => if x = o % 256 then v % 256 else f x)) := by
  simp [write_ec_byte, kcsWaitIbfClear, mockM, mockReadP, mockWriteP,
    mockWith, mockStatus, EC_DATA_PORT, EC_STATUS_PORT, EC_CTRL_PORT, EC_STATUS_IBF,
    EC_STATUS_OBF, EC_CTRL_READ_CMD, EC_CMD_WRITE]

/-- Appending traces appends their write projections. -/
theorem writesOf_append (a b : List PortOp) : writesOf (a ++ b) = writesOf a ++ writesOf b := by
  induction a with
  | nil => rfl
  | cons op t ih => cases op <;> simp [writesOf, ih]

/-- A trace of status reads contains no writes. -/
theorem writesOf_eq_nil_of_statusReads {t : List PortOp} (h : ∀ op ∈ t, IsStatusRead op) :
    writesOf t = [] := by
  induction t with
  | nil => rfl
  | cons op rest ih =>
    cases op with
    | readOp p v => exact ih fun op hop => h op (List.mem_cons_of_mem _ hop)
    | writeOp p v => exact absurd (h _ (List.mem_cons_self _ _)) id

/-- Joining a low byte below 256 onto a shifted high byte is plain base-256
arithmetic. -/
theorem shiftLeft_eight_lor (a b : Nat) (h : b < 256) : (a <<< 8) ||| b = a * 256 + b := by
  apply Nat.eq_of_testBit_eq
  intro i
  rw [Nat.testBit_lor, Nat.testBit_shiftLeft,
    show a * 256 + b = 2 ^ 8 * a + b by ring,
    Nat.testBit_mul_pow_two_add a (by simpa using h) i]
  by_cases hi : i < 8
  · simp [hi, Nat.not_le.mpr hi]
  · have h8 : 8 ≤ i := Nat.le_of_not_lt hi
    have hb : b.testBit i = false :=
      Nat.testBit_lt_two_pow
        (lt_of_lt_of_le h (Nat.pow_le_pow_right (show 0 < 2 by norm_num) h8))
    simp [hi, h8, hb]

/-- C3: writing byte v at offset o and then reading offset o through the mock
EC returns v, for all o, v in 0-255. -/
theorem write_then_read_roundtrip (o v : Nat) (ho : o < 256) (hv : v < 256) :
    (read_ec_byte mockM 1 o (write_ec_byte mockM 1 o v mockInit).2.2).1 = .ok v := by
  simp only [mockInit, mock_write, mock_read]
  simp [Nat.mod_eq_of_lt ho, Nat.mod_eq_of_lt hv]

/-- Witness for C3 at offset 0x2F, value 0xAB. -/
theorem write_then_read_roundtrip_witness :
    (read_ec_byte mockM 1 0x2F (write_ec_byte mockM 1 0x2F 0xAB mockInit).2.2).1 = .ok 0xAB :=
  write_then_read_roundtrip 0x2F 0xAB (by decide) (by decide)

/-- C7: an invalid fan level or sensor index is rejected with ValueError and
performs zero port operations. -/
theorem invalid_args_no_port_access {σ : Type} (M : PortMachine σ) (fuel : Nat) (s : σ)
    (level idx : Int)
    (hL : ¬((0 ≤ level ∧ level ≤ 7) ∨ level = FAN_LEVEL_AUTO ∨ level = FAN_LEVEL_FULL))
    (hI : ¬(0 ≤ idx ∧ idx ≤ 7)) :
    set_fan_level M fuel level s = (.error .valueError, [], s) ∧
    get_temperature M fuel idx s = (.error .valueError, [], s) := by
  constructor
  · simp only [set_fan_level]
    rw [if_pos hL]
  · simp only [get_temperature]
    rw [if_pos hI]

/-- Witness for C7 at fan level 8 and sensor index -1. -/
theorem invalid_args_no_port_access_witness :
    set_fan_level mockM 1 8 mockInit = (.error .valueError, [], mockInit) ∧
    get_temperature mockM 1 (-1) mockInit = (.error .valueError, [], mockInit) :=
  invalid_args_no_port_access mockM 1 mockInit 8 (-1) (by decide) (by decide)

/-- C4: the temperature read at sensor i reads the byte at TEMP_BASE+i and
decodes it as a signed byte, 0x80 meaning unavailable. -/
theorem get_temperature_decode (i : Int) (b : Nat) (hi : 0 ≤ i ∧ i ≤ 7) (hb : b < 256) :
    (get_temperature mockM 1 i (tempMock i.toNat b)).1 =
      .ok (if b = 0x80 then none
           else if 128 ≤ b then some ((b : Int) - 256) else some (b : Int)) := by
  have h7 : i.toNat ≤ 7 := by omega
  have hoff : TP_EC_TEMP_BASE + i.toNat < 256 := by
    simp only [TP_EC_TEMP_BASE]; omega
  simp only [get_temperature, tempMock, mock_read]
  rw [if_neg (not_not_intro hi)]
  simp only [tempMock, mock_read, Nat.mod_eq_of_lt hoff]
  simp only [eq_self_iff_true, if_true]
  simp only [Nat.mod_eq_of_lt hb]
  by_cases h80 : b = 0x80
  · simp [h80]
  · by_cases hgt : 127 < b
    · have h128 : 128 ≤ b := by omega
      simp [h80, hgt, h128]
    · have h128 : ¬ 128 ≤ b := by omega
      simp [h80, hgt, h128]

/-- Witness for C4 at the three example bytes of the spec. -/
theorem get_temperature_decode_witness :
    (get_temperature mockM 1 0 (tempMock 0 0x46)).1 = .ok (some 70) ∧
    (get_temperature mockM 1 0 (tempMock 0 0xF6)).1 = .ok (some (-10)) ∧
    (get_temperature mockM 1 0 (tempMock 0 0x80)).1 = .ok none := by
  refine ⟨?_, ?_, ?_⟩
  · have h := get_temperature_decode 0 0x46 (by decide) (by decide)
    norm_num at h
    simpa using h
  · have h := get_temperature_decode 0 0xF6 (by decide) (by decide)
    norm_num at h
    simpa using h
  · have h := get_temperature_decode 0 0x80 (by decide) (by decide)
    norm_num at h
    simpa using h

set_option maxRecDepth 4000 in
/-- C5: fan RPM reads LSB then MSB and combines as msb*256+lsb with the
0xFFFF sentinel reported as 0. -/
theorem get_fan_rpm_order_and_combine (lsb msb : Nat) (hl : lsb < 256) (hm : msb < 256) :
    (get_fan_rpm mockM 1 (rpmMock lsb msb)).1 =
      (if msb * 256 + lsb = 0xFFFF then (0 : Int) else ((msb * 256 + lsb : Nat) : Int)) ∧
    writesOf (get_fan_rpm mockM 1 (rpmMock lsb msb)).2.1 =
      [(EC_CTRL_PORT, 0x80), (EC_DATA_PORT, TP_EC_FAN_RPM_LSB),
       (EC_CTRL_PORT, 0x80), (EC_DATA_PORT, TP_EC_FAN_RPM_MSB)] := by
  simp only [get_fan_rpm, rpmMock, mock_read]
  norm_num [TP_EC_FAN_RPM_LSB, TP_EC_FAN_RPM_MSB]
  simp only [Nat.mod_eq_of_lt hl]
  simp only [Nat.mod_eq_of_lt hm]
  rw [shiftLeft_eight_lor _ _ hl]
  constructor
  · by_cases hc : msb * 256 + lsb = 0xFFFF <;> simp [hc]
  · by_cases hc : msb * 256 + lsb = 0xFFFF <;>
      simp [hc, writesOf, EC_CTRL_PORT, EC_DATA_PORT]

/-- Witness for C5 at the 0xFFFF sentinel. -/
theorem get_fan_rpm_order_and_combine_witness :
    (get_fan_rpm mockM 1 (rpmMock 0xFF 0xFF)).1 = 0 := by
  have h := (get_fan_rpm_order_and_combine 0xFF 0xFF (by decide) (by decide)).1
  norm_num at h
  exact h
/-- The curve loop leaves the accumulator unchanged when no threshold is
reached by the temperature. -/
theorem curveLoop_of_none_le (temp : Int) :
    ∀ (curve : List (Int × Int)) (acc : Int), (∀ p ∈ curve, ¬ p.1 ≤ temp) →
      curveLoop temp curve acc = acc
  | [], _, _ => rfl
  | (t, l) :: rest, acc, h => by
    have ht : ¬ t ≤ temp := by simpa using h (t, l) (List.mem_cons_self _ _)
    simp only [curveLoop]
    rw [if_neg ht]

/-- On a curve sorted ascending by threshold, the loop returns the level of
the last pair whose threshold is at most the temperature. -/
theorem curveLoop_getLast (temp : Int) :
    ∀ (curve : List (Int × Int)) (acc : Int) (p : Int × Int),
      List.Pairwise (· ≤ ·) (curve.map Prod.fst) →
      (curve.filter (fun q => decide (q.1 ≤ temp))).getLast? = some p →
      curveLoop temp curve acc = p.2
  | [], acc, p, _, hlast => by simp at hlast
  | (t, l) :: rest, acc, p, hs, hlast => by
    rw [List.map_cons, List.pairwise_cons] at hs
    obtain ⟨hhead, htail⟩ := hs
    by_cases ht : t ≤ temp
    · rw [List.filter_cons_of_pos (by simpa using ht)] at hlast
      simp only [curveLoop]
      rw [if_pos ht]
      by_cases hrest : rest.filter (fun q => decide (q.1 ≤ temp)) = []
      · rw [hrest] at hlast
        have hp : (t, l) = p := by simpa using hlast
        obtain rfl := hp.symm
        have hnone : ∀ q ∈ rest, ¬ q.1 ≤ temp := by
          intro q hq
          simpa using List.filter_eq_nil_iff.mp hrest q hq
        rw [curveLoop_of_none_le temp rest l hnone]
      · obtain ⟨a, as, ha⟩ := List.exists_cons_of_ne_nil hrest
        rw [ha, List.getLast?_cons_cons] at hlast
        rw [← ha] at hlast
        exact curveLoop_getLast temp rest l p htail hlast
    · exfalso
      have hnone : ((t, l) :: rest).filter (fun q => decide (q.1 ≤ temp)) = [] := by
        rw [List.filter_eq_nil_iff]
        intro q hq
        rcases List.mem_cons.mp hq with hq0 | hqr
        · simpa [hq0] using ht
        · have htq : t ≤ q.1 := hhead q.1 (List.mem_map_of_mem Prod.fst hqr)
          simp only [decide_eq_true_eq]
          intro hc
          exact ht (le_trans htq hc)
      rw [hnone] at hlast
      simp at hlast

/-- C6: on a curve sorted ascending by threshold, a present temperature maps
to the level of the highest threshold not exceeding it, and an absent
temperature maps to the AUTO sentinel and never to a discrete level. -/
theorem curve_evaluation (curve : List (Int × Int)) (temp : Int)
    (hs : List.Pairwise (· ≤ ·) (curve.map Prod.fst))
    (hex : ∃ q ∈ curve, q.1 ≤ temp) :
    (∃ p, (curve.filter (fun q => decide (q.1 ≤ temp))).getLast? = some p ∧
        get_target_fan_level (some temp) curve = .ok p.2) ∧
    get_target_fan_level none curve = .ok FAN_LEVEL_AUTO ∧
    ¬(0 ≤ FAN_LEVEL_AUTO ∧ FAN_LEVEL_AUTO ≤ 7) := by
  refine ⟨?_, rfl, by decide⟩
  obtain ⟨q, hq, hql⟩ := hex
  have hne : curve.filter (fun r => decide (r.1 ≤ temp)) ≠ [] := by
    intro h
    exact (List.filter_eq_nil_iff.mp h q hq) (by simpa using hql)
  obtain ⟨p, hp⟩ : ∃ p, (curve.filter (fun r => decide (r.1 ≤ temp))).getLast? = some p := by
    rcases hL : (curve.filter (fun r => decide (r.1 ≤ temp))).getLast? with _ | p
    · exact absurd (List.getLast?_eq_none_iff.mp hL) hne
    · exact ⟨p, hL⟩
  refine ⟨p, hp, ?_⟩
  cases curve with
  | nil => exact absurd hq (List.not_mem_nil q)
  | cons c0 rest =>
    simp only [get_target_fan_level]
    rw [curveLoop_getLast temp (c0 :: rest) c0.2 p hs hp]
/-- Witness for C6 on the default curve at the example temperatures of the spec. -/
theorem curve_evaluation_witness :
    get_target_fan_level (some 60) DEFAULT_FAN_CURVE = .ok 2 ∧
    get_target_fan_level (some 49) DEFAULT_FAN_CURVE = .ok 0 ∧
    get_target_fan_level (some 90) DEFAULT_FAN_CURVE = .ok 7 ∧
    get_target_fan_level none DEFAULT_FAN_CURVE = .ok FAN_LEVEL_AUTO := by
  obtain ⟨⟨p60, hp60, he60⟩, hnone, -⟩ :=
    curve_evaluation DEFAULT_FAN_CURVE 60 (by decide) ⟨(0, 0), by decide, by decide⟩
  obtain ⟨⟨p49, hp49, he49⟩, -, -⟩ :=
    curve_evaluation DEFAULT_FAN_CURVE 49 (by decide) ⟨(0, 0), by decide, by decide⟩
  obtain ⟨⟨p90, hp90, he90⟩, -, -⟩ :=
    curve_evaluation DEFAULT_FAN_CURVE 90 (by decide) ⟨(0, 0), by decide, by decide⟩
  have hv60 : (DEFAULT_FAN_CURVE.filter (fun q => decide (q.1 ≤ (60 : Int)))).getLast? =
      some ((55 : Int), (2 : Int)) := by decide
  have hv49 : (DEFAULT_FAN_CURVE.filter (fun q => decide (q.1 ≤ (49 : Int)))).getLast? =
      some ((0 : Int), (0 : Int)) := by decide
  have hv90 : (DEFAULT_FAN_CURVE.filter (fun q => decide (q.1 ≤ (90 : Int)))).getLast? =
      some ((85 : Int), (7 : Int)) := by decide
  rw [hv60] at hp60
  rw [hv49] at hp49
  rw [hv90] at hp90
  injection hp60 with h60
  injection hp49 with h49
  injection hp90 with h90
  subst h60
  subst h49
  subst h90
  exact ⟨he60, he49, he90, hnone⟩
/-- Every operation an IBF poll performs is a status-port read, and a
successful poll ends with a read whose IBF bit is clear. -/
theorem kcsWaitIbfClear_spec {σ : Type} (M : PortMachine σ) :
    ∀ (fuel : Nat) (s : σ),
      (∀ op ∈ (kcsWaitIbfClear M fuel s).2.1, IsStatusRead op) ∧
      ((kcsWaitIbfClear M fuel s).1 = true →
        ∃ q v, (kcsWaitIbfClear M fuel s).2.1 = q ++ [PortOp.readOp EC_STATUS_PORT v] ∧
          v &&& EC_STATUS_IBF = 0)
  | 0, s => by simp [kcsWaitIbfClear]
  | fuel + 1, s => by
    rcases hR : M.readP s EC_STATUS_PORT with ⟨st, s1⟩
    by_cases hc : st % 256 &&& EC_STATUS_IBF = 0
    · simp only [kcsWaitIbfClear, hR, if_pos hc]
      constructor
      · intro op hop
        rcases List.mem_singleton.mp hop with rfl
        exact rfl
      · intro _
        exact ⟨[], st % 256, rfl, hc⟩
    · have IH := kcsWaitIbfClear_spec M fuel s1
      rcases hK : kcsWaitIbfClear M fuel s1 with ⟨r, t, s2⟩
      rw [hK] at IH
      simp only [kcsWaitIbfClear, hR, if_neg hc, hK]
      constructor
      · intro op hop
        rcases List.mem_cons.mp hop with rfl | hmem
        · exact rfl
        · exact IH.1 op hmem
      · intro hr
        obtain ⟨q, v, hq, hv⟩ := IH.2 hr
        have hq' : t = q ++ [PortOp.readOp EC_STATUS_PORT v] := hq
        refine ⟨PortOp.readOp EC_STATUS_PORT (st % 256) :: q, v, ?_, hv⟩
        rw [hq', List.cons_append]

/-- Every operation an OBF poll performs is a status-port read, and a
successful poll ends with a read whose OBF bit is set. -/
theorem kcsWaitObfSet_spec {σ : Type} (M : PortMachine σ) :
    ∀ (fuel : Nat) (s : σ),
      (∀ op ∈ (kcsWaitObfSet M fuel s).2.1, IsStatusRead op) ∧
      ((kcsWaitObfSet M fuel s).1 = true →
        ∃ q v, (kcsWaitObfSet M fuel s).2.1 = q ++ [PortOp.readOp EC_STATUS_PORT v] ∧
          v &&& EC_STATUS_OBF ≠ 0)
  | 0, s => by simp [kcsWaitObfSet]
  | fuel + 1, s => by
    rcases hR : M.readP s EC_STATUS_PORT with ⟨st, s1⟩
    by_cases hc : st % 256 &&& EC_STATUS_OBF ≠ 0
    · simp only [kcsWaitObfSet, hR, if_pos hc]
      constructor
      · intro op hop
        rcases List.mem_singleton.mp hop with rfl
        exact rfl
      · intro _
        exact ⟨[], st % 256, rfl, hc⟩
    · have IH := kcsWaitObfSet_spec M fuel s1
      rcases hK : kcsWaitObfSet M fuel s1 with ⟨r, t, s2⟩
      rw [hK] at IH
      simp only [kcsWaitObfSet, hR, if_neg hc, hK]
      constructor
      · intro op hop
        rcases List.mem_cons.mp hop with rfl | hmem
        · exact rfl
        · exact IH.1 op hmem
      · intro hr
        obtain ⟨q, v, hq, hv⟩ := IH.2 hr
        have hq' : t = q ++ [PortOp.readOp EC_STATUS_PORT v] := hq
        refine ⟨PortOp.readOp EC_STATUS_PORT (st % 256) :: q, v, ?_, hv⟩
        rw [hq', List.cons_append]
/-- C1: a successful read-register transaction is exactly: a status-read
burst ending with IBF clear, the 0x80 command write to the command port,
another status burst ending with IBF clear, the offset write to the data
port, a status burst ending with OBF set, the data-port read that yields
the result, and one final discarded status read; a poll timeout fails with
the tag of that stage, the trace containing exactly the writes made before the
failing poll. -/
theorem read_transaction_protocol {σ : Type} (M : PortMachine σ) (fuel offset : Nat) (s : σ) :
    match read_ec_byte M fuel offset s with
    | (.ok d, tr, _) =>
      ∃ p1 p2 p3 w,
        (∀ op ∈ p1, IsStatusRead op) ∧ (∀ op ∈ p2, IsStatusRead op) ∧
        (∀ op ∈ p3, IsStatusRead op) ∧
        (∃ q v, p1 = q ++ [PortOp.readOp EC_STATUS_PORT v] ∧ v &&& EC_STATUS_IBF = 0) ∧
        (∃ q v, p2 = q ++ [PortOp.readOp EC_STATUS_PORT v] ∧ v &&& EC_STATUS_IBF = 0) ∧
        (∃ q v, p3 = q ++ [PortOp.readOp EC_STATUS_PORT v] ∧ v &&& EC_STATUS_OBF ≠ 0) ∧
        tr = p1 ++ [PortOp.writeOp EC_CTRL_PORT EC_CTRL_READ_CMD] ++ p2 ++
             [PortOp.writeOp EC_DATA_PORT (offset % 256)] ++ p3 ++
             [PortOp.readOp EC_DATA_PORT d, PortOp.readOp EC_STATUS_PORT w]
    | (.error e, tr, _) =>
      (e = .timeoutError .ibfBeforeReadCmd ∧ writesOf tr = []) ∨
      (e = .timeoutError .ibfBeforeOffset ∧
        writesOf tr = [(EC_CTRL_PORT, EC_CTRL_READ_CMD)]) ∨
      (e = .timeoutError .obfAfterOffset ∧
        writesOf tr = [(EC_CTRL_PORT, EC_CTRL_READ_CMD), (EC_DATA_PORT, offset % 256)]) := by
  rcases h0 : M.readP s EC_CTRL_PORT with ⟨st0, s0⟩
  have K1 := kcsWaitIbfClear_spec M fuel s0
  rcases h1 : kcsWaitIbfClear M fuel s0 with ⟨b1, t1, s1⟩
  rw [h1] at K1
  have hT1 : ∀ op ∈ t1, IsStatusRead op := K1.1
  have hE1 : b1 = true →
      ∃ q v, t1 = q ++ [PortOp.readOp EC_STATUS_PORT v] ∧ v &&& EC_STATUS_IBF = 0 := K1.2
  cases b1 with
  | false =>
    simp only [read_ec_byte, h0, h1]
    exact Or.inl ⟨trivial, by simp [writesOf, writesOf_eq_nil_of_statusReads hT1]⟩
  | true =>
    obtain ⟨q1, v1, hq1, hv1⟩ := hE1 rfl
    have K2 := kcsWaitIbfClear_spec M fuel (M.writeP s1 EC_CTRL_PORT (EC_CTRL_READ_CMD % 256))
    rcases h2 : kcsWaitIbfClear M fuel (M.writeP s1 EC_CTRL_PORT (EC_CTRL_READ_CMD % 256))
      with ⟨b2, t2, s3⟩
    rw [h2] at K2
    have hT2 : ∀ op ∈ t2, IsStatusRead op := K2.1
    have hE2 : b2 = true →
        ∃ q v, t2 = q ++ [PortOp.readOp EC_STATUS_PORT v] ∧ v &&& EC_STATUS_IBF = 0 := K2.2
    cases b2 with
    | false =>
      simp only [read_ec_byte, h0, h1, h2]
      refine Or.inr (Or.inl ⟨trivial, ?_⟩)
      simp [writesOf, writesOf_append, writesOf_eq_nil_of_statusReads hT1,
        writesOf_eq_nil_of_statusReads hT2, EC_CTRL_PORT, EC_CTRL_READ_CMD]
    | true =>
      obtain ⟨q2, v2, hq2, hv2⟩ := hE2 rfl
      have K3 := kcsWaitObfSet_spec M fuel (M.writeP s3 EC_DATA_PORT (offset % 256))
      rcases h3 : kcsWaitObfSet M fuel (M.writeP s3 EC_DATA_PORT (offset % 256))
        with ⟨b3, t3, s5⟩
      rw [h3] at K3
      have hT3 : ∀ op ∈ t3, IsStatusRead op := K3.1
      have hE3 : b3 = true →
          ∃ q v, t3 = q ++ [PortOp.readOp EC_STATUS_PORT v] ∧ v &&& EC_STATUS_OBF ≠ 0 := K3.2
      cases b3 with
      | false =>
        simp only [read_ec_byte, h0, h1, h2, h3]
        refine Or.inr (Or.inr ⟨trivial, ?_⟩)
        simp [writesOf, writesOf_append, writesOf_eq_nil_of_statusReads hT1,
          writesOf_eq_nil_of_statusReads hT2, writesOf_eq_nil_of_statusReads hT3,
          EC_CTRL_PORT, EC_DATA_PORT, EC_CTRL_READ_CMD]
      | true =>
        obtain ⟨q3, v3, hq3, hv3⟩ := hE3 rfl
        rcases h5 : M.readP s5 EC_DATA_PORT with ⟨d0, s6⟩
        rcases h6 : M.readP s6 EC_STATUS_PORT with ⟨stA, s7⟩
        simp only [read_ec_byte, h0, h1, h2, h3, h5, h6]
        refine ⟨PortOp.readOp EC_CTRL_PORT (st0 % 256) :: t1, t2, t3, stA % 256,
          ?_, hT2, hT3, ?_, ⟨q2, v2, hq2, hv2⟩, ⟨q3, v3, hq3, hv3⟩, ?_⟩
        · intro op hop
          rcases List.mem_cons.mp hop with rfl | hmem
          · exact rfl
          · exact hT1 op hmem
        · exact ⟨PortOp.readOp EC_CTRL_PORT (st0 % 256) :: q1, v1,
            by rw [hq1, List.cons_append], hv1⟩
        · simp [List.cons_append, List.append_assoc, EC_CTRL_READ_CMD]
/-- C2: a successful write-register transaction is exactly: a status-read
burst ending with IBF clear, the 0x81 command write to the command port, an
IBF burst, the offset write to the data port, an IBF burst, the value write
to the data port, and one final IBF burst confirming the EC consumed the
byte; a poll timeout fails with the tag of that stage, the trace containing
exactly the writes made before the failing poll. -/
theorem write_transaction_protocol {σ : Type} (M : PortMachine σ) (fuel offset value : Nat)
    (s : σ) :
    match write_ec_byte M fuel offset value s with
    | (.ok _, tr, _) =>
      ∃ p1 p2 p3 p4,
        (∀ op ∈ p1, IsStatusRead op) ∧ (∀ op ∈ p2, IsStatusRead op) ∧
        (∀ op ∈ p3, IsStatusRead op) ∧ (∀ op ∈ p4, IsStatusRead op) ∧
        (∃ q v, p1 = q ++ [PortOp.readOp EC_STATUS_PORT v] ∧ v &&& EC_STATUS_IBF = 0) ∧
        (∃ q v, p2 = q ++ [PortOp.readOp EC_STATUS_PORT v] ∧ v &&& EC_STATUS_IBF = 0) ∧
        (∃ q v, p3 = q ++ [PortOp.readOp EC_STATUS_PORT v] ∧ v &&& EC_STATUS_IBF = 0) ∧
        (∃ q v, p4 = q ++ [PortOp.readOp EC_STATUS_PORT v] ∧ v &&& EC_STATUS_IBF = 0) ∧
        tr = p1 ++ [PortOp.writeOp EC_CTRL_PORT EC_CTRL_WRITE_CMD] ++ p2 ++
             [PortOp.writeOp EC_DATA_PORT (offset % 256)] ++ p3 ++
             [PortOp.writeOp EC_DATA_PORT (value % 256)] ++ p4
    | (.error e, tr, _) =>
      (e = .timeoutError .ibfBeforeWriteCmd ∧ writesOf tr = []) ∨
      (e = .timeoutError .ibfAfterWriteCmd ∧
        writesOf tr = [(EC_CTRL_PORT, EC_CTRL_WRITE_CMD)]) ∨
      (e = .timeoutError .ibfAfterOffset ∧
        writesOf tr = [(EC_CTRL_PORT, EC_CTRL_WRITE_CMD), (EC_DATA_PORT, offset % 256)]) ∨
      (e = .timeoutError .ibfAfterData ∧
        writesOf tr = [(EC_CTRL_PORT, EC_CTRL_WRITE_CMD), (EC_DATA_PORT, offset % 256),
                       (EC_DATA_PORT, value % 256)]) := by
  rcases h0 : M.readP s EC_STATUS_PORT with ⟨st0, s0⟩
  have K1 := kcsWaitIbfClear_spec M fuel s0
  rcases h1 : kcsWaitIbfClear M fuel s0 with ⟨b1, t1, s1⟩
  rw [h1] at K1
  have hT1 : ∀ op ∈ t1, IsStatusRead op := K1.1
  have hE1 : b1 = true →
      ∃ q v, t1 = q ++ [PortOp.readOp EC_STATUS_PORT v] ∧ v &&& EC_STATUS_IBF = 0 := K1.2
  cases b1 with
  | false =>
    simp only [write_ec_byte, h0, h1]
    exact Or.inl ⟨trivial, by simp [writesOf, writesOf_eq_nil_of_statusReads hT1]⟩
  | true =>
    obtain ⟨q1, v1, hq1, hv1⟩ := hE1 rfl
    have K2 := kcsWaitIbfClear_spec M fuel (M.writeP s1 EC_CTRL_PORT (EC_CMD_WRITE % 256))
    rcases h2 : kcsWaitIbfClear M fuel (M.writeP s1 EC_CTRL_PORT (EC_CMD_WRITE % 256))
      with ⟨b2, t2, s3⟩
    rw [h2] at K2
    have hT2 : ∀ op ∈ t2, IsStatusRead op := K2.1
    have hE2 : b2 = true →
        ∃ q v, t2 = q ++ [PortOp.readOp EC_STATUS_PORT v] ∧ v &&& EC_STATUS_IBF = 0 := K2.2
    cases b2 with
    | false =>
      simp only [write_ec_byte, h0, h1, h2]
      refine Or.inr (Or.inl ⟨trivial, ?_⟩)
      simp [writesOf, writesOf_append, writesOf_eq_nil_of_statusReads hT1,
        writesOf_eq_nil_of_statusReads hT2, EC_CTRL_PORT, EC_CMD_WRITE, EC_CTRL_WRITE_CMD]
    | true =>
      obtain ⟨q2, v2, hq2, hv2⟩ := hE2 rfl
      have K3 := kcsWaitIbfClear_spec M fuel (M.writeP s3 EC_DATA_PORT (offset % 256))
      rcases h3 : kcsWaitIbfClear M fuel (M.writeP s3 EC_DATA_PORT (offset % 256))
        with ⟨b3, t3, s5⟩
      rw [h3] at K3
      have hT3 : ∀ op ∈ t3, IsStatusRead op := K3.1
      have hE3 : b3 = true →
          ∃ q v, t3 = q ++ [PortOp.readOp EC_STATUS_PORT v] ∧ v &&& EC_STATUS_IBF = 0 := K3.2
      cases b3 with
      | false =>
        simp only [write_ec_byte, h0, h1, h2, h3]
        refine Or.inr (Or.inr (Or.inl ⟨trivial, ?_⟩))
        simp [writesOf, writesOf_append, writesOf_eq_nil_of_statusReads hT1,
          writesOf_eq_nil_of_statusReads hT2, writesOf_eq_nil_of_statusReads hT3,
          EC_CTRL_PORT, EC_DATA_PORT, EC_CMD_WRITE, EC_CTRL_WRITE_CMD]
      | true =>
        obtain ⟨q3, v3, hq3, hv3⟩ := hE3 rfl
        have K4 := kcsWaitIbfClear_spec M fuel (M.writeP s5 EC_DATA_PORT (value % 256))
        rcases h4 : kcsWaitIbfClear M fuel (M.writeP s5 EC_DATA_PORT (value % 256))
          with ⟨b4, t4, s7⟩
        rw [h4] at K4
        have hT4 : ∀ op ∈ t4, IsStatusRead op := K4.1
        have hE4 : b4 = true →
            ∃ q v, t4 = q ++ [PortOp.readOp EC_STATUS_PORT v] ∧ v &&& EC_STATUS_IBF = 0 := K4.2
        cases b4 with
        | false =>
          simp only [write_ec_byte, h0, h1, h2, h3, h4]
          refine Or.inr (Or.inr (Or.inr ⟨trivial, ?_⟩))
          simp [writesOf, writesOf_append, writesOf_eq_nil_of_statusReads hT1,
            writesOf_eq_nil_of_statusReads hT2, writesOf_eq_nil_of_statusReads hT3,
            writesOf_eq_nil_of_statusReads hT4,
            EC_CTRL_PORT, EC_DATA_PORT, EC_CMD_WRITE, EC_CTRL_WRITE_CMD]
        | true =>
          obtain ⟨q4, v4, hq4, hv4⟩ := hE4 rfl
          simp only [write_ec_byte, h0, h1, h2, h3, h4]
          refine ⟨PortOp.readOp EC_STATUS_PORT (st0 % 256) :: t1, t2, t3, t4,
            ?_, hT2, hT3, hT4,
            ⟨PortOp.readOp EC_STATUS_PORT (st0 % 256) :: q1, v1,
              by rw [hq1, List.cons_append], hv1⟩,
            ⟨q2, v2, hq2, hv2⟩, ⟨q3, v3, hq3, hv3⟩, ⟨q4, v4, hq4, hv4⟩, ?_⟩
          · intro op hop
            rcases List.mem_cons.mp hop with rfl | hmem
            · exact rfl
            · exact hT1 op hmem
          · simp [List.cons_append, List.append_assoc, EC_CMD_WRITE, EC_CTRL_WRITE_CMD]
/-- C8 (amended): a transaction error inside the RPM read is reported as -1,
inside the fan-level write as a false result, and inside the temperature
read as the value none, which is exactly the value that also encodes the
sensor-unavailable (0x80) outcome, so the two are not distinguishable by the
caller. -/
theorem error_reporting {σ : Type} (M : PortMachine σ) (fuel : Nat) (s : σ) (i : Int)
    (hi : 0 ≤ i ∧ i ≤ 7)
    (lvl : Int) (hlvl : (0 ≤ lvl ∧ lvl ≤ 7) ∨ lvl = FAN_LEVEL_AUTO ∨ lvl = FAN_LEVEL_FULL) :
    (∀ e t1 s1, read_ec_byte M fuel TP_EC_FAN_RPM_LSB s = (.error e, t1, s1) →
      (get_fan_rpm M fuel s).1 = -1) ∧
    (∀ lsb t1 s1 e t2 s2, read_ec_byte M fuel TP_EC_FAN_RPM_LSB s = (.ok lsb, t1, s1) →
      read_ec_byte M fuel TP_EC_FAN_RPM_MSB s1 = (.error e, t2, s2) →
      (get_fan_rpm M fuel s).1 = -1) ∧
    (∀ e t1 s1, write_ec_byte M fuel TP_EC_FAN_STATUS lvl.toNat s = (.error e, t1, s1) →
      (set_fan_level M fuel lvl s).1 = .ok false) ∧
    (∀ e t1 s1, read_ec_byte M fuel (TP_EC_TEMP_BASE + i.toNat) s = (.error e, t1, s1) →
      (get_temperature M fuel i s).1 = .ok none) ∧
    (get_temperature mockM 1 0 (tempMock 0 0x80)).1 = .ok none := by
  refine ⟨?_, ?_, ?_, ?_, ?_⟩
  · intro e t1 s1 h
    simp only [get_fan_rpm, h]
  · intro lsb t1 s1 e t2 s2 h1 h2
    simp only [get_fan_rpm, h1, h2]
  · intro e t1 s1 h
    simp only [set_fan_level]
    rw [if_neg (not_not_intro hlvl)]
    simp only [h]
  · intro e t1 s1 h
    simp only [get_temperature]
    rw [if_neg (not_not_intro hi)]
    simp only [h]
  · simp only [get_temperature, tempMock, mock_read]
    norm_num [TP_EC_TEMP_BASE]

/-- Witness for C8 on a machine whose IBF never clears. -/
theorem error_reporting_witness :
    (get_fan_rpm stuckM 1 ()).1 = -1 ∧
    (set_fan_level stuckM 1 FAN_LEVEL_AUTO ()).1 = .ok false ∧
    (get_temperature stuckM 1 0 ()).1 = .ok none := by
  have h := error_reporting stuckM 1 () 0 (by decide) FAN_LEVEL_AUTO (by decide)
  exact ⟨h.1 _ _ _ rfl, h.2.2.1 _ _ _ rfl, h.2.2.2.1 _ _ _ rfl⟩

/-- C8 counterexample: a temperature read whose transaction times out
returns exactly the same caller-visible value as a read of the 0x80
sensor-unavailable sentinel, so the failure is not distinguishable from the
SensorUnavailable result. -/
theorem temperature_error_indistinguishable :
    (get_temperature stuckM 1 0 ()).1 = .ok none ∧
    (get_temperature mockM 1 0 (tempMock 0 0x80)).1 = .ok none ∧
    (get_temperature stuckM 1 0 ()).1 = (get_temperature mockM 1 0 (tempMock 0 0x80)).1 := by
  have h1 : (get_temperature stuckM 1 0 ()).1 = .ok none := rfl
  have h2 : (get_temperature mockM 1 0 (tempMock 0 0x80)).1 = .ok none := by
    simp only [get_temperature, tempMock, mock_read]
    norm_num [TP_EC_TEMP_BASE]
  exact ⟨h1, h2, h1.trans h2.symm⟩

/-- C9 (amended): whenever the configuration loads, the write attempts of the main routine end with the AUTO sentinel on every termination of the loop; when
configuration loading fails, the routine returns with no write attempt and
no port operation at all. -/
theorem svc_main_shutdown {σ : Type} (M : PortMachine σ) (fuel : Nat) (sensorIndex : Int)
    (curve : List (Int × Int)) (stops : List Bool) (s : σ) :
    (∃ l, (svc_main M fuel (.ok (sensorIndex, curve)) stops s).2.1 = l ++ [FAN_LEVEL_AUTO]) ∧
    (svc_main M fuel (.error ()) stops s).2.1 = [] ∧
    (svc_main M fuel (.error ()) stops s).2.2.1 = [] := by
  refine ⟨?_, rfl, rfl⟩
  rcases hL : main_loop M fuel sensorIndex curve stops TPFanWinService_initial_level s
    with ⟨c, a, t, s1⟩
  rcases hS : set_fan_level M fuel FAN_LEVEL_AUTO s1 with ⟨r, t2, s2⟩
  simp only [svc_main, hL, hS]
  exact ⟨a, rfl⟩

/-- C9 counterexample: on the startup-failure termination path (configuration
loading fails) the main routine returns having attempted no fan-level write
and performed no port operation, so no AUTO write is attempted there. -/
theorem svc_main_config_failure_no_auto_write :
    svc_main mockM 1 (.error ()) [] mockInit = (FAN_LEVEL_AUTO, [], [], mockInit) := rfl

/-- C10: in a control cycle with a present temperature reading, a fan-level
write is attempted iff the computed target differs from the stored level
(whose initial value is AUTO), and the stored level becomes the target
exactly when that write succeeds, staying unchanged otherwise. -/
theorem cycle_writes_only_on_change {σ : Type} (M : PortMachine σ) (fuel : Nat)
    (sensorIndex : Int) (curve : List (Int × Int)) (cur : Int) (s : σ)
    (tc : Int) (t1 : List PortOp) (s1 : σ) (target : Int)
    (hT : get_temperature M fuel sensorIndex s = (.ok (some tc), t1, s1))
    (hG : get_target_fan_level (some tc) curve = .ok target) :
    TPFanWinService_initial_level = FAN_LEVEL_AUTO ∧
    (cur = target → control_cycle M fuel sensorIndex curve cur s = (cur, [], t1, s1)) ∧
    (cur ≠ target →
      (control_cycle M fuel sensorIndex curve cur s).2.1 = [target] ∧
      (((set_fan_level M fuel target s1).1 = .ok true ∧
          (control_cycle M fuel sensorIndex curve cur s).1 = target) ∨
        ((set_fan_level M fuel target s1).1 ≠ .ok true ∧
          (control_cycle M fuel sensorIndex curve cur s).1 = cur))) := by
  refine ⟨rfl, ?_, ?_⟩
  · intro hEq
    simp only [control_cycle, hT, hG]
    rw [if_neg (not_not_intro hEq)]
  · intro hNe
    rcases hS : set_fan_level M fuel target s1 with ⟨r, t2, s2⟩
    cases r with
    | error e =>
      have hC : control_cycle M fuel sensorIndex curve cur s = (cur, [target], t1 ++ t2, s2) := by
        simp only [control_cycle, hT, hG, if_pos hNe, hS]
      exact ⟨by rw [hC], Or.inr ⟨by simp, by rw [hC]⟩⟩
    | ok b =>
      cases b
      · have hC : control_cycle M fuel sensorIndex curve cur s =
            (cur, [target], t1 ++ t2, s2) := by
          simp only [control_cycle, hT, hG, if_pos hNe, hS]
        exact ⟨by rw [hC], Or.inr ⟨by simp, by rw [hC]⟩⟩
      · have hC : control_cycle M fuel sensorIndex curve cur s =
            (target, [target], t1 ++ t2, s2) := by
          simp only [control_cycle, hT, hG, if_pos hNe, hS]
        exact ⟨by rw [hC], Or.inl ⟨rfl, by rw [hC]⟩⟩

/-- Witness for C10: sensor byte 0x46 (70 C) against the default curve from
the initial AUTO level attempts exactly one write of level 3, which succeeds
on the mock, updating the stored level to 3. -/
theorem cycle_writes_only_on_change_witness :
    (control_cycle mockM 1 0 DEFAULT_FAN_CURVE FAN_LEVEL_AUTO (tempMock 0 0x46)).2.1 = [3] ∧
    (control_cycle mockM 1 0 DEFAULT_FAN_CURVE FAN_LEVEL_AUTO (tempMock 0 0x46)).1 = 3 := by
  have h := cycle_writes_only_on_change mockM 1 0 DEFAULT_FAN_CURVE FAN_LEVEL_AUTO
    (tempMock 0 0x46) 70 _ _ 3 rfl rfl
  rcases h.2.2 (by decide) with ⟨hatt, hdisj⟩
  refine ⟨hatt, ?_⟩
  rcases hdisj with ⟨-, hres⟩ | ⟨hs, -⟩
  · exact hres
  · exact absurd rfl hs

end TPFanWin
